import Mathlib

/-!
Shallow embedding of the flight-simulation engine of the repository
(the Three.js script defining the `Flight` class, the `animate` loop,
`updateInstancedPlanes`, `calculateCurvePoints`, the instanced-mesh
`raycast` override, `setupSpeedControl` and `createAirportStars`).

Times, coordinates and counters are modelled over `ℚ`; the script divides
by a possibly-zero flight duration, so the IEEE special values produced by
JavaScript division (`Infinity`, `-Infinity`, `NaN`) are tracked explicitly
by the type `JVal` below, together with the JavaScript comparison semantics
(every comparison with `NaN` is false).
-/

namespace FlightSim

/-- JavaScript number value: a finite value (idealised as a rational) or one
of the special values `Infinity`, `-Infinity`, `NaN`. -/
inductive JVal where
  | fin (q : ℚ)
  | pinf
  | ninf
  | nan
deriving DecidableEq

/-- JavaScript division of two finite numbers: `a / 0` is `Infinity`,
`-Infinity` or `NaN` according to the sign of `a`. -/
def jsDiv (a b : ℚ) : JVal :=
  if b ≠ 0 then JVal.fin (a / b)
  else if 0 < a then JVal.pinf
  else if a < 0 then JVal.ninf
  else JVal.nan

/-- JavaScript multiplication of a number by a finite number `k`:
`Infinity * 0` is `NaN`, otherwise infinities keep or flip sign with `k`. -/
def jmul (t : JVal) (k : ℚ) : JVal :=
  match t with
  | JVal.fin q => JVal.fin (q * k)
  | JVal.pinf => if 0 < k then JVal.pinf else if k < 0 then JVal.ninf else JVal.nan
  | JVal.ninf => if 0 < k then JVal.ninf else if k < 0 then JVal.pinf else JVal.nan
  | JVal.nan => JVal.nan

/-- JavaScript addition; `Infinity + (-Infinity)` is `NaN`. -/
def jadd : JVal → JVal → JVal
  | JVal.fin a, JVal.fin b => JVal.fin (a + b)
  | JVal.nan, _ => JVal.nan
  | _, JVal.nan => JVal.nan
  | JVal.pinf, JVal.ninf => JVal.nan
  | JVal.ninf, JVal.pinf => JVal.nan
  | JVal.pinf, _ => JVal.pinf
  | _, JVal.pinf => JVal.pinf
  | JVal.ninf, _ => JVal.ninf
  | _, JVal.ninf => JVal.ninf

/-- JavaScript `Math.floor`: the floor of a finite value; special values are
returned unchanged. -/
def jfloor : JVal → JVal
  | JVal.fin q => JVal.fin (⌊q⌋ : ℤ)
  | JVal.pinf => JVal.pinf
  | JVal.ninf => JVal.ninf
  | JVal.nan => JVal.nan

/-- JavaScript strict `<`: any comparison involving `NaN` is false. -/
def jlt : JVal → JVal → Bool
  | JVal.fin a, JVal.fin b => decide (a < b)
  | JVal.nan, _ => false
  | _, JVal.nan => false
  | JVal.ninf, JVal.ninf => false
  | JVal.ninf, _ => true
  | _, JVal.ninf => false
  | JVal.pinf, _ => false
  | JVal.fin _, JVal.pinf => true

/-- JavaScript `<=`: any comparison involving `NaN` is false. -/
def jle : JVal → JVal → Bool
  | JVal.fin a, JVal.fin b => decide (a ≤ b)
  | JVal.nan, _ => false
  | _, JVal.nan => false
  | JVal.ninf, _ => true
  | _, JVal.ninf => false
  | JVal.pinf, JVal.pinf => true
  | JVal.fin _, JVal.pinf => true
  | JVal.pinf, JVal.fin _ => false

/-- JavaScript `>` as used in the script (`a > b` is `b < a`). -/
def jgt (a b : JVal) : Bool := jlt b a

/-- JavaScript `>=` as used in the script (`a >= b` is `b <= a`). -/
def jge (a b : JVal) : Bool := jle b a

/-!
The simulation clock.  In `animate` the script computes

  `const currentTime = clock.getElapsedTime() * TIME_ACCELERATION;`

where `clock.getElapsedTime()` is the total real time elapsed since the
`THREE.Clock` started and `TIME_ACCELERATION` is the mutable global updated
by the speed slider.  The whole elapsed real time is multiplied by the
acceleration factor current at read time.
-/

/-- Embeds the `currentTime` computation of the `animate` loop: total elapsed
real time times the acceleration factor read at this frame. -/
def animateSimTime (elapsedReal accel : ℚ) : ℚ :=
  elapsedReal * accel

/-- Modelled from the spec: the "change speed going forward" simulated time
the spec ascribes to the engine.  With acceleration `a` until real time `r0`
and `b` afterwards, simulated time at real time `r ≥ r0` is the `a`-scaled
time up to `r0` plus the `b`-scaled time after `r0`.  (This definition
follows the spec's words; the engine's own computation is `animateSimTime`.) -/
def specForwardSimTime (a b r0 r : ℚ) : ℚ :=
  r0 * a + (r - r0) * b

/-!
The speed slider.  `setupSpeedControl` creates an HTML range input with
`min='1'`, `max='10'` and installs the listener

  `TIME_ACCELERATION = 1440 / speedSlider.value;`

The listener performs no validation, consults no previous value and signals
no error; the only guard is the range element itself, which clamps its value
to `[1, 10]`.
-/

/-- Clamp applied by the HTML range element (`min='1'`, `max='10'`). -/
def sliderClamp (v : ℚ) : ℚ := max 1 (min 10 v)

/-- Embeds the slider input listener body: `TIME_ACCELERATION = 1440 / value`.
The listener is unconditional: it takes no account of the previous
acceleration and has no failure path. -/
def speedSliderInput (v : ℚ) : JVal := jsDiv 1440 v

/-- C3 counterexample: acceleration changed mid-run from `a = 1` to `b = 2`
at real time `r0 = 1`, read at real time `r = 2`.  The engine computes
`2 * 2 = 4`, while the claimed forward-only semantics demands
`1 * 1 + 1 * 2 = 3`: the engine retroactively rescales the time elapsed
before the change. -/
theorem c3_retroactive_rescale_cex :
    animateSimTime 2 2 ≠ specForwardSimTime 1 2 1 2 := by
  unfold animateSimTime specForwardSimTime
  norm_num

/-- C3 (amended): after a mid-run change of the acceleration from `a` to `b`
at real time `r0`, the engine's simulated time at any real time `r` is the
whole elapsed real time scaled by the new factor `b`, which differs from the
forward-only semantics by exactly `(b - a) * r0`: the engine retroactively
rescales already-elapsed simulated time whenever `a ≠ b` and `r0 ≠ 0`. -/
theorem c3_retroactive_rescale_amended (a b r0 r : ℚ) :
    animateSimTime r b - specForwardSimTime a b r0 r = (b - a) * r0 := by
  unfold animateSimTime specForwardSimTime
  ring

/-- C7 counterexample: the slider listener has no rejection path.  Applied to
the raw value `-1` it stores the non-positive factor `-1440` instead of
retaining the prior value (the initial acceleration is `1440 / 5 = 288`),
and no `InvalidAcceleration` condition exists anywhere in the script. -/
theorem c7_no_rejection_cex :
    speedSliderInput (-1) = JVal.fin (-1440) ∧
      JVal.fin (-1440) ≠ JVal.fin (1440 / 5) ∧ (-1440 : ℚ) ≤ 0 := by
  refine ⟨?_, ?_, by norm_num⟩
  · unfold speedSliderInput jsDiv
    norm_num
  · simp only [ne_eq, JVal.fin.injEq]
    norm_num

/-- C7 (amended): the speed control never rejects or signals anything; the
listener unconditionally stores `1440 / value`, and the only guard is the
HTML range clamp to `[1, 10]`, under which every stored acceleration factor
is positive (indeed in `[144, 1440]`).  Non-positive factors are
unreachable through the control rather than rejected. -/
theorem c7_slider_always_positive (v : ℚ) :
    speedSliderInput (sliderClamp v) = JVal.fin (1440 / sliderClamp v) ∧
      0 < 1440 / sliderClamp v ∧
      144 ≤ 1440 / sliderClamp v ∧ 1440 / sliderClamp v ≤ 1440 := by
  have h1 : (1 : ℚ) ≤ sliderClamp v := le_max_left _ _
  have h10 : sliderClamp v ≤ 10 := by
    unfold sliderClamp
    rcases le_total (10 : ℚ) v with h | h
    · simp [min_eq_left h]
    · exact max_le (by norm_num) (le_trans (min_le_right _ _) (le_trans h (le_refl _)))
  have hpos : (0 : ℚ) < sliderClamp v := lt_of_lt_of_le one_pos h1
  refine ⟨?_, ?_, ?_, ?_⟩
  · unfold speedSliderInput jsDiv
    simp [ne_of_gt hpos]
  · exact div_pos (by norm_num) hpos
  · rw [le_div_iff₀ hpos]
    nlinarith
  · rw [div_le_iff₀ hpos]
    nlinarith

/-!
Departure-time parsing.  `loadFlightData` feeds each CSV row through
PapaParse with `dynamicTyping: true` (so a cell is absent, a number, or a
string) and only constructs a `Flight` when `data.departure_time` is truthy.
`Flight.parseTime` then runs

  `if (!timeString || typeof timeString !== 'string') return 0;`
  `const [hours, minutes] = timeString.trim().split(':').map(Number);`
  `return (hours * 60 + minutes) * 60;`

`Number(part)` of a trimmed piece is `0` for an empty piece, the numeric
value for a digit string, and `NaN` otherwise; a missing destructured
element is `undefined`, which behaves as `NaN` in the arithmetic.  The model
covers exactly those value shapes (the dataset column is `HH:MM`).
-/

/-- Content of the `departure_time` cell after PapaParse `dynamicTyping`:
absent (`undefined`/`null`), converted to a number, or left a string. -/
inductive CsvCell where
  | missing
  | num (q : ℚ)
  | str (s : String)

/-- JavaScript truthiness of a cell value. -/
def truthy : CsvCell → Bool
  | CsvCell.missing => false
  | CsvCell.num q => decide (q ≠ 0)
  | CsvCell.str s => decide (s ≠ "")

/-- Embeds the row gate in `loadFlightData`: a `Flight` is constructed only
when `data.departure_time` is truthy (`if (data && data.departure_time)`). -/
def rowAccepted (departureTime : CsvCell) : Bool := truthy departureTime

/-- JavaScript `String.prototype.trim` on a character list: strip leading and
trailing whitespace. -/
def trimChars (cs : List Char) : List Char :=
  ((cs.dropWhile Char.isWhitespace).reverse.dropWhile Char.isWhitespace).reverse

/-- JavaScript `split(':')`: splitting never yields the empty list (splitting
the empty string yields one empty piece). -/
def splitCols : List Char → List (List Char)
  | [] => [[]]
  | c :: rest =>
    if c = ':' then [] :: splitCols rest
    else
      match splitCols rest with
      | h :: t => (c :: h) :: t
      | [] => [[c]]

/-- Numeric value of a digit string. -/
def natOfDigits (cs : List Char) : ℕ :=
  cs.foldl (fun n c => 10 * n + (c.toNat - 48)) 0

/-- JavaScript `Number(s)` restricted to the shapes reachable from the
schedule column: an (internally trimmed) empty string is `0`, a digit string
is its value, anything else is `NaN`. -/
def jsNumberOfChars (cs : List Char) : JVal :=
  let t := trimChars cs
  if t = [] then JVal.fin 0
  else if t.all Char.isDigit then JVal.fin (natOfDigits t) else JVal.nan

/-- Embeds `Flight.parseTime`.  A falsy or non-string cell returns `0`; a
non-empty string is trimmed and split on `':'`, the first two pieces are
converted by `Number` (a missing second piece is `undefined`, which the
subsequent arithmetic turns into `NaN`), and the result is
`(hours * 60 + minutes) * 60`. -/
def parseTime (cell : CsvCell) : JVal :=
  match cell with
  | CsvCell.str s =>
    if s = "" then JVal.fin 0
    else
      let parts := (splitCols (trimChars s.data)).map jsNumberOfChars
      let hours := parts.getD 0 JVal.nan
      let minutes := parts.getD 1 JVal.nan
      jmul (jadd (jmul hours 60) minutes) 60
  | _ => JVal.fin 0

/-- C6 counterexample: the malformed (but truthy) schedule value `"ab:cd"`
is not parsed to the claimed default `0`: both pieces convert to `NaN`, so
`parseTime` returns `NaN`. -/
theorem c6_malformed_time_nan_cex :
    parseTime (CsvCell.str "ab:cd") = JVal.nan ∧
      parseTime (CsvCell.str "ab:cd") ≠ JVal.fin 0 := by
  constructor <;> decide

/-- C6 (amended): a missing or non-string schedule value is parsed to
simulation-second `0` (and a missing value never even reaches `parseTime`:
the loader drops falsy rows), and a well-formed `HH:MM` string — one whose
trimmed form splits on `':'` into exactly two numeric pieces — is parsed to
`(hours * 60 + minutes) * 60` simulation seconds from midnight.  A malformed
non-empty string instead yields `NaN` (see the counterexample); in every
case recovery is silent, no error is surfaced. -/
theorem c6_parse_time_amended :
    parseTime CsvCell.missing = JVal.fin 0 ∧
    (∀ q : ℚ, parseTime (CsvCell.num q) = JVal.fin 0) ∧
    rowAccepted CsvCell.missing = false ∧
    (∀ (s : String) (h m : List Char) (hq mq : ℚ),
      splitCols (trimChars s.data) = [h, m] →
      jsNumberOfChars h = JVal.fin hq →
      jsNumberOfChars m = JVal.fin mq →
      parseTime (CsvCell.str s) = JVal.fin ((hq * 60 + mq) * 60)) := by
  refine ⟨rfl, fun q => rfl, rfl, ?_⟩
  intro s h m hq mq hsplit hh hm
  have hs : s ≠ "" := by
    intro he
    have h1 : splitCols (trimChars ("".data)) = [[]] := rfl
    rw [he, h1] at hsplit
    simp at hsplit
  simp [parseTime, hs, hsplit, hh, hm, jmul, jadd]

/-- C6 witness: the well-formed value `"12:30"` parses to
`(12 * 60 + 30) * 60` simulation seconds. -/
theorem c6_parse_time_amended_witness :
    parseTime (CsvCell.str "12:30") = JVal.fin (((12 : ℚ) * 60 + 30) * 60) :=
  c6_parse_time_amended.2.2.2 "12:30" ['1', '2'] ['3', '0'] 12 30
    (by decide) (by decide) (by decide)

/-!
The `Flight` entity.  The mutable fields mirror the JavaScript object:
`dynamicPathAdded` and `dynamicSegmentIndex` are set in the constructor
(`false` / `0`), while `departed` and `arrived` start out absent
(`undefined`, falsy) and are created by `updateInstancedPlanes`; we model
them as booleans initialised to `false`.  The curve points are opaque to the
update logic (the geometry lives in `calculateCurvePoints` below), so the
point type is a parameter `α`.  Writes into the dynamic path's
`Float32Array` (allocated with `(curvePoints.length - 1) * 6` floats) are
recorded as `(offset, start, end)` triples standing for the six consecutive
stores `positions[offset] .. positions[offset + 5]`. -/
structure Flight (α : Type) where
  origin_lat : ℚ
  origin_lon : ℚ
  destination_lat : ℚ
  destination_lon : ℚ
  startTime : ℚ
  duration : ℚ
  curvePoints : List α
  dynamicPathAdded : Bool
  dynamicSegmentIndex : ℤ
  departed : Bool
  arrived : Bool
  posWrites : List (ℕ × α × α)

/-- JavaScript array indexing with a (possibly negative) integer index:
out-of-range access yields `undefined`, modelled as `none`. -/
def cpGet {α : Type} (l : List α) (i : ℤ) : Option α :=
  if 0 ≤ i then l.get? i.toNat else none

/-- Integer range `[a, a + 1, …, b]` (empty when `b < a`), the index list of
`for (let i = a; i <= b; i++)`. -/
def intRange (a b : ℤ) : List ℤ :=
  (List.range (b - a + 1).toNat).map (fun k => a + (k : ℤ))

/-- Writes performed by the segment loop of `Flight.update` for indices
`i = d .. ti`: segment `i` stores `curvePoints[i]` and `curvePoints[i + 1]`
at float offset `i * 6`, and is skipped by the `if (end)` guard when
`curvePoints[i + 1]` is `undefined`.  (The `start` point is also looked up
through `cpGet`; a write is recorded only when both points exist, which for
`i ≥ 0` is exactly the source's guard, since `start` always exists when
`end` does.) -/
def segWrites {α : Type} (cp : List α) (d ti : ℤ) : List (ℕ × α × α) :=
  (intRange d ti).filterMap (fun i =>
    match cpGet cp i, cpGet cp (i + 1) with
    | some s, some e => some (i.toNat * 6, s, e)
    | _, _ => none)

/-- Target segment index of `Flight.update`:
`Math.floor(t * (curvePoints.length - 1))` in JavaScript arithmetic. -/
def targetSeg (t : JVal) (len : ℕ) : JVal :=
  jfloor (jmul t ((len : ℚ) - 1))

/-- Embeds `Flight.update(currentTime)`.  First the `dynamicPathAdded` gate
(`currentTime >= startTime` adds the path once); then, while
`currentTime <= startTime + duration`, the progress `t`, the target segment
index, and — only when the target strictly exceeds `dynamicSegmentIndex` —
the segment writes and the index update.  In the finite case the JavaScript
comparison `targetSegmentIndex > dynamicSegmentIndex` is the integer
comparison shown, because the target is already `Math.floor`ed.  A
`+Infinity` target (only possible for `duration = 0`, excluded here by the
time window `currentTime <= startTime + duration` together with
`duration ≥ 0`) would make the JavaScript loop run forever; the model maps
this unreachable case to a no-op.  `NaN` and `-Infinity` targets fail the
`>` comparison and are no-ops in JavaScript exactly as here.
The two sequential `if` statements of the method body are split into
`addDynamicPath` (the `dynamicPathAdded` gate) and `revealSegments` (the
segment reveal), applied in source order by `Flight.update`. -/
def addDynamicPath {α : Type} (c : ℚ) (f : Flight α) : Flight α :=
  if decide (f.startTime ≤ c) && !f.dynamicPathAdded then
    { f with dynamicPathAdded := true }
  else f

/-- Embeds the second statement of `Flight.update`: while
`currentTime <= startTime + duration`, compute the target segment index and
— only when it strictly exceeds `dynamicSegmentIndex` — perform the segment
writes and advance the index. -/
def revealSegments {α : Type} (c : ℚ) (f : Flight α) : Flight α :=
  if f.dynamicPathAdded && decide (c ≤ f.startTime + f.duration) then
    match targetSeg (jsDiv (c - f.startTime) f.duration) f.curvePoints.length with
    | JVal.fin q =>
      if f.dynamicSegmentIndex < ⌊q⌋ then
        { f with
            posWrites := f.posWrites ++ segWrites f.curvePoints f.dynamicSegmentIndex ⌊q⌋,
            dynamicSegmentIndex := ⌊q⌋ }
      else f
    | _ => f
  else f

def Flight.update {α : Type} (c : ℚ) (f : Flight α) : Flight α :=
  revealSegments c (addDynamicPath c f)

/-- Iterated ticks of `Flight.update` (the per-frame call in `animate`). -/
def runPath {α : Type} (ticks : List ℚ) (f : Flight α) : Flight α :=
  ticks.foldl (fun g c => Flight.update c g) f

/-- Airport star record: the `{ lat, lon, planes }` data object built by
`createAirportStars`.  Lookups in `updateInstancedPlanes` compare the
template key &quot;lat,lon&quot; of two airports; since JavaScript number-to-string
conversion is injective, key equality is coordinate pair equality. -/
structure Airport where
  lat : ℚ
  lon : ℚ
  planes : ℤ
deriving DecidableEq

/-- Embeds `airportStars.find(...)` followed by the count update: the first
airport whose key equals the given coordinates has `planes` adjusted by `d`;
when no airport matches, the list is returned unchanged (the source's
`if (originAirport)` / `if (destinationAirport)` guard). -/
def adjustPlanes : List Airport → ℚ → ℚ → ℤ → List Airport
  | [], _, _, _ => []
  | a :: rest, la, lo, d =>
    if a.lat = la ∧ a.lon = lo then { a with planes := a.planes + d } :: rest
    else a :: adjustPlanes rest la lo d

/-- Result of one `updateInstancedPlanes` pass over one flight: the updated
flight and airport list, plus whether the departure / arrival transition
fired during this tick. -/
structure TickResult (α : Type) where
  flight : Flight α
  stars : List Airport
  depFired : Bool
  arrFired : Bool

/-- Progress fraction `t = (currentTime - flight.startTime) / flight.duration`
computed by `updateInstancedPlanes` (JavaScript division). -/
def progressT {α : Type} (c : ℚ) (f : Flight α) : JVal :=
  jsDiv (c - f.startTime) f.duration

/-- Embeds the per-flight body of `updateInstancedPlanes(currentTime)`:
inside the `t >= 0 && t <= 1` window, `t < 0.01 && !departed` decrements the
origin airport's count and sets `departed`, `else if t > 0.99 && !arrived`
increments the destination airport's count and sets `arrived`.  (The
position/orientation slot write that also happens inside the window does not
touch these fields.) -/
def updateInstancedPlanesStep {α : Type} (c : ℚ) (f : Flight α) (stars : List Airport) :
    TickResult α :=
  if jge (progressT c f) (JVal.fin 0) && jle (progressT c f) (JVal.fin 1) then
    if jlt (progressT c f) (JVal.fin (1 / 100)) && !f.departed then
      ⟨{ f with departed := true }, adjustPlanes stars f.origin_lat f.origin_lon (-1),
        true, false⟩
    else if jgt (progressT c f) (JVal.fin (99 / 100)) && !f.arrived then
      ⟨{ f with arrived := true },
        adjustPlanes stars f.destination_lat f.destination_lon 1, false, true⟩
    else ⟨f, stars, false, false⟩
  else ⟨f, stars, false, false⟩

/-- Result of running a flight through a whole tick sequence: final state
plus how many times each transition fired. -/
structure RunResult (α : Type) where
  flight : Flight α
  stars : List Airport
  depCount : ℕ
  arrCount : ℕ

/-- Iterated `updateInstancedPlanes` ticks for one flight, counting how many
times the departure and arrival transitions fire. -/
def runInstancedPlanes {α : Type} : List ℚ → Flight α → List Airport → RunResult α
  | [], f, stars => ⟨f, stars, 0, 0⟩
  | c :: ticks, f, stars =>
    let s := updateInstancedPlanesStep c f stars
    let r := runInstancedPlanes ticks s.flight s.stars
    ⟨r.flight, r.stars, (if s.depFired then 1 else 0) + r.depCount,
      (if s.arrFired then 1 else 0) + r.arrCount⟩

/-- One `updateInstancedPlanes` tick relates the departure flag and the
departure firing: the new flag is the old flag or-ed with the firing, and a
firing requires the old flag to be `false` (the `!flight.departed` gate). -/
theorem step_departed_spec {α : Type} (c : ℚ) (f : Flight α) (stars : List Airport) :
    (updateInstancedPlanesStep c f stars).flight.departed
        = (f.departed || (updateInstancedPlanesStep c f stars).depFired) ∧
      ((updateInstancedPlanesStep c f stars).depFired = true → f.departed = false) := by
  unfold updateInstancedPlanesStep
  split
  · split
    · rename_i h2
      simp only [Bool.and_eq_true, Bool.not_eq_true'] at h2
      simp [h2.2]
    · split <;> simp
  · simp

/-- One `updateInstancedPlanes` tick relates the arrival flag and the
arrival firing, as for departure. -/
theorem step_arrived_spec {α : Type} (c : ℚ) (f : Flight α) (stars : List Airport) :
    (updateInstancedPlanesStep c f stars).flight.arrived
        = (f.arrived || (updateInstancedPlanesStep c f stars).arrFired) ∧
      ((updateInstancedPlanesStep c f stars).arrFired = true → f.arrived = false) := by
  unfold updateInstancedPlanesStep
  split
  · split
    · simp
    · split
      · rename_i h3
        simp only [Bool.and_eq_true, Bool.not_eq_true'] at h3
        simp [h3.2]
      · simp
  · simp

/-- Concrete trip for the C1 counterexample: departure at simulation second
0, duration 100 simulation seconds, both endpoints present as airports. -/
def c1Flight : Flight Unit :=
  ⟨0, 0, 0, 90, 0, 100, [], false, 0, false, false, []⟩

/-- Airports for the C1 counterexample (origin holds 3 planes). -/
def c1Stars : List Airport := [⟨0, 0, 3⟩, ⟨0, 90, 0⟩]

/-- C1 counterexample: transitions do NOT fire exactly once regardless of
tick rate.  For the trip departing at 0 with duration 100, the tick sequence
`[50, 200]` (frames skipped over both the departure window `t < 0.01` and
the arrival window `t > 0.99`) spans the whole flight, yet neither
transition ever fires: the flags stay `false` and no occupancy changes. -/
theorem c1_transitions_can_be_skipped :
    (runInstancedPlanes [50, 200] c1Flight c1Stars).depCount = 0 ∧
      (runInstancedPlanes [50, 200] c1Flight c1Stars).arrCount = 0 ∧
      (runInstancedPlanes [50, 200] c1Flight c1Stars).flight.departed = false ∧
      (runInstancedPlanes [50, 200] c1Flight c1Stars).flight.arrived = false ∧
      (runInstancedPlanes [50, 200] c1Flight c1Stars).stars = c1Stars := by
  norm_num [runInstancedPlanes, updateInstancedPlanesStep, progressT, jsDiv,
    c1Flight, c1Stars, jge, jle, jlt, jgt]

/-- C1 (amended): the boolean-flag gating makes each transition fire AT MOST
once per trip over any tick sequence — duplicate ticks at the same `simTime`
included — and `departed` / `arrived` are monotone (`false → true` only).
Firing EXACTLY once additionally requires the tick sequence to sample the
windows `0 ≤ t < 0.01` and `0.99 < t ≤ 1` (see the counterexample). -/
theorem c1_transitions_at_most_once {α : Type} (f : Flight α) (stars : List Airport)
    (ticks : List ℚ) :
    (runInstancedPlanes ticks f stars).depCount ≤ (if f.departed then 0 else 1) ∧
      (runInstancedPlanes ticks f stars).arrCount ≤ (if f.arrived then 0 else 1) ∧
      (f.departed = true → (runInstancedPlanes ticks f stars).flight.departed = true) ∧
      (f.arrived = true → (runInstancedPlanes ticks f stars).flight.arrived = true) := by
  induction ticks generalizing f stars with
  | nil => simp [runInstancedPlanes]
  | cons c ticks ih =>
    obtain ⟨hdeq, hdimp⟩ := step_departed_spec c f stars
    obtain ⟨haeq, haimp⟩ := step_arrived_spec c f stars
    obtain ⟨ih1, ih2, ih3, ih4⟩ :=
      ih (updateInstancedPlanesStep c f stars).flight
        (updateInstancedPlanesStep c f stars).stars
    simp only [runInstancedPlanes]
    refine ⟨?_, ?_, ?_, ?_⟩
    · cases hf : (updateInstancedPlanesStep c f stars).depFired
      · rw [hf] at hdeq
        simp only [Bool.or_false] at hdeq
        rw [hdeq] at ih1
        simpa using ih1
      · have h0 : f.departed = false := hdimp hf
        rw [hf] at hdeq
        simp only [Bool.or_true] at hdeq
        rw [hdeq] at ih1
        simp only [hf, h0]
        simp at ih1 ⊢
        omega
    · cases hf : (updateInstancedPlanesStep c f stars).arrFired
      · rw [hf] at haeq
        simp only [Bool.or_false] at haeq
        rw [haeq] at ih2
        simpa using ih2
      · have h0 : f.arrived = false := haimp hf
        rw [hf] at haeq
        simp only [Bool.or_true] at haeq
        rw [haeq] at ih2
        simp only [hf, h0]
        simp at ih2 ⊢
        omega
    · intro hft
      exact ih3 (by simp [hdeq, hft])
    · intro hft
      exact ih4 (by simp [haeq, hft])

/-- C1 witness: for a trip whose flags are already set, no tick sequence
fires a transition again and the flags stay `true`. -/
theorem c1_transitions_at_most_once_witness :
    (runInstancedPlanes [0, 0, 50] (⟨0, 0, 0, 90, 0, 100, [], false, 0, true, true, []⟩ : Flight Unit) c1Stars).depCount ≤ 0 ∧
      (runInstancedPlanes [0, 0, 50] (⟨0, 0, 0, 90, 0, 100, [], false, 0, true, true, []⟩ : Flight Unit) c1Stars).arrCount ≤ 0 ∧
      (runInstancedPlanes [0, 0, 50] (⟨0, 0, 0, 90, 0, 100, [], false, 0, true, true, []⟩ : Flight Unit) c1Stars).flight.departed = true ∧
      (runInstancedPlanes [0, 0, 50] (⟨0, 0, 0, 90, 0, 100, [], false, 0, true, true, []⟩ : Flight Unit) c1Stars).flight.arrived = true := by
  obtain ⟨h1, h2, h3, h4⟩ :=
    c1_transitions_at_most_once
      (⟨0, 0, 0, 90, 0, 100, [], false, 0, true, true, []⟩ : Flight Unit) c1Stars [0, 0, 50]
  exact ⟨by simpa using h1, by simpa using h2, h3 rfl, h4 rfl⟩

/-- Concrete trip for the C4 counterexample: origin and destination
coincide, so the haversine distance and hence
`duration = distance / FLIGHT_SPEED` are exactly `0`. -/
def c4Flight : Flight Unit :=
  ⟨10, 20, 10, 20, 0, 0, [], false, 0, false, false, []⟩

/-- Airports for the C4 counterexample (matching the trip's endpoint). -/
def c4Stars : List Airport := [⟨10, 20, 1⟩]

/-- C4 counterexample: for a zero-duration trip, a tick at
`simTime = startOffset` computes `t = 0 / 0 = NaN` and a later tick computes
`t = Infinity`; neither lies in the `[0, 1]` window, so NO transition ever
fires — contrary to the claim that `t` is driven to `1` and both
transitions trigger. -/
theorem c4_zero_duration_cex :
    progressT 0 c4Flight = JVal.nan ∧
      progressT 5 c4Flight = JVal.pinf ∧
      (runInstancedPlanes [0, 5] c4Flight c4Stars).flight.departed = false ∧
      (runInstancedPlanes [0, 5] c4Flight c4Stars).flight.arrived = false ∧
      (runInstancedPlanes [0, 5] c4Flight c4Stars).stars = c4Stars := by
  norm_num [runInstancedPlanes, updateInstancedPlanesStep, progressT, jsDiv,
    c4Flight, c4Stars, jge, jle, jlt, jgt]

/-- C4 (amended): a zero-duration trip is a no-op for `updateInstancedPlanes`
at EVERY tick: the JavaScript division yields `NaN` (at
`simTime = startOffset`) or `±Infinity` (elsewhere), the `t >= 0 && t <= 1`
gate is false, and neither transition, occupancy change nor slot write
occurs.  No error is raised (the step is total); `t` never reaches `1`. -/
theorem c4_zero_duration_noop {α : Type} (f : Flight α) (stars : List Airport) (c : ℚ)
    (h : f.duration = 0) :
    (updateInstancedPlanesStep c f stars).flight = f ∧
      (updateInstancedPlanesStep c f stars).stars = stars ∧
      (updateInstancedPlanesStep c f stars).depFired = false ∧
      (updateInstancedPlanesStep c f stars).arrFired = false := by
  have hgate : (jge (progressT c f) (JVal.fin 0) && jle (progressT c f) (JVal.fin 1))
      = false := by
    unfold progressT jsDiv
    rw [h]
    rcases lt_trichotomy (c - f.startTime) 0 with hlt | heq | hgt
    · simp [hlt, not_lt.mpr (le_of_lt hlt), jge, jle]
    · simp [heq, jge, jle]
    · simp [hgt, not_lt.mpr (le_of_lt hgt), jge, jle]
  unfold updateInstancedPlanesStep
  rw [hgate]
  simp

/-- C4 witness: the amended no-op theorem applied to the concrete
zero-duration trip at tick 0. -/
theorem c4_zero_duration_noop_witness :
    (updateInstancedPlanesStep 0 c4Flight c4Stars).flight = c4Flight ∧
      (updateInstancedPlanesStep 0 c4Flight c4Stars).stars = c4Stars ∧
      (updateInstancedPlanesStep 0 c4Flight c4Stars).depFired = false ∧
      (updateInstancedPlanesStep 0 c4Flight c4Stars).arrFired = false :=
  c4_zero_duration_noop c4Flight c4Stars 0 rfl

/-- An `airportStars.find` with no key match leaves the airport list
untouched (the source skips the count update under `if (originAirport)`). -/
theorem adjustPlanes_no_match (stars : List Airport) (la lo : ℚ) (d : ℤ)
    (h : ∀ a ∈ stars, ¬(a.lat = la ∧ a.lon = lo)) :
    adjustPlanes stars la lo d = stars := by
  induction stars with
  | nil => rfl
  | cons a rest ih =>
    unfold adjustPlanes
    rw [if_neg (h a (List.mem_cons_self a rest))]
    rw [ih (fun b hb => h b (List.mem_cons_of_mem a hb))]

/-- C8: when a trip's endpoint coordinates match no airport record, the
occupancy update is silently skipped — the airport list is unchanged, no
error is raised — while the `departed` (resp. `arrived`) flag is still set.
The first conjunct covers the departure transition, the second the arrival
transition (whose branch is reached only when the departure condition is
false). -/
theorem c8_unmatched_airport_skipped {α : Type} (f : Flight α) (stars : List Airport)
    (c : ℚ) :
    ((∀ a ∈ stars, ¬(a.lat = f.origin_lat ∧ a.lon = f.origin_lon)) →
      (jge (progressT c f) (JVal.fin 0) && jle (progressT c f) (JVal.fin 1)) = true →
      (jlt (progressT c f) (JVal.fin (1 / 100)) && !f.departed) = true →
      (updateInstancedPlanesStep c f stars).stars = stars ∧
        (updateInstancedPlanesStep c f stars).flight.departed = true) ∧
    ((∀ a ∈ stars, ¬(a.lat = f.destination_lat ∧ a.lon = f.destination_lon)) →
      (jge (progressT c f) (JVal.fin 0) && jle (progressT c f) (JVal.fin 1)) = true →
      (jlt (progressT c f) (JVal.fin (1 / 100)) && !f.departed) = false →
      (jgt (progressT c f) (JVal.fin (99 / 100)) && !f.arrived) = true →
      (updateInstancedPlanesStep c f stars).stars = stars ∧
        (updateInstancedPlanesStep c f stars).flight.arrived = true) := by
  constructor
  · intro hmatch hgate hdep
    unfold updateInstancedPlanesStep
    rw [hgate, hdep]
    simp [adjustPlanes_no_match stars f.origin_lat f.origin_lon (-1) hmatch]
  · intro hmatch hgate hdep harr
    unfold updateInstancedPlanesStep
    rw [hgate, hdep, harr]
    simp [adjustPlanes_no_match stars f.destination_lat f.destination_lon 1 hmatch]

/-- C8 witness: a trip from (0,0) to (0,90) with duration 100 among airports
that match neither endpoint; a tick at `t = 0` performs the departure
transition with no occupancy change, a tick at `t = 1` the arrival
transition likewise. -/
theorem c8_unmatched_airport_skipped_witness :
    ((updateInstancedPlanesStep 0
        (⟨0, 0, 0, 90, 0, 100, [], false, 0, false, false, []⟩ : Flight Unit)
        [⟨5, 5, 2⟩]).stars = [⟨5, 5, 2⟩] ∧
      (updateInstancedPlanesStep 0
        (⟨0, 0, 0, 90, 0, 100, [], false, 0, false, false, []⟩ : Flight Unit)
        [⟨5, 5, 2⟩]).flight.departed = true) ∧
    ((updateInstancedPlanesStep 100
        (⟨0, 0, 0, 90, 0, 100, [], false, 0, false, false, []⟩ : Flight Unit)
        [⟨5, 5, 2⟩]).stars = [⟨5, 5, 2⟩] ∧
      (updateInstancedPlanesStep 100
        (⟨0, 0, 0, 90, 0, 100, [], false, 0, false, false, []⟩ : Flight Unit)
        [⟨5, 5, 2⟩]).flight.arrived = true) := by
  constructor
  · exact (c8_unmatched_airport_skipped
      (⟨0, 0, 0, 90, 0, 100, [], false, 0, false, false, []⟩ : Flight Unit)
      [⟨5, 5, 2⟩] 0).1
      (by intro a ha; simp at ha; simp [ha])
      (by norm_num [progressT, jsDiv, jge, jle])
      (by norm_num [progressT, jsDiv, jlt])
  · exact (c8_unmatched_airport_skipped
      (⟨0, 0, 0, 90, 0, 100, [], false, 0, false, false, []⟩ : Flight Unit)
      [⟨5, 5, 2⟩] 100).2
      (by intro a ha; simp at ha; simp [ha])
      (by norm_num [progressT, jsDiv, jge, jle])
      (by norm_num [progressT, jsDiv, jlt])
      (by norm_num [progressT, jsDiv, jgt, jlt])

/-- The dynamic-path gate changes no field except `dynamicPathAdded`. -/
theorem addDynamicPath_fields {α : Type} (c : ℚ) (f : Flight α) :
    (addDynamicPath c f).startTime = f.startTime ∧
      (addDynamicPath c f).duration = f.duration ∧
      (addDynamicPath c f).curvePoints = f.curvePoints ∧
      (addDynamicPath c f).dynamicSegmentIndex = f.dynamicSegmentIndex ∧
      (addDynamicPath c f).posWrites = f.posWrites := by
  unfold addDynamicPath
  split <;> simp

/-- The segment reveal never decreases `dynamicSegmentIndex`: the index is
reassigned only under the guard `targetSegmentIndex > dynamicSegmentIndex`. -/
theorem revealSegments_seg_mono {α : Type} (c : ℚ) (f : Flight α) :
    f.dynamicSegmentIndex ≤ (revealSegments c f).dynamicSegmentIndex := by
  unfold revealSegments
  split
  · split
    · split
      · rename_i h
        simpa using le_of_lt h
      · exact le_refl _
    · exact le_refl _
  · exact le_refl _

/-- The segment reveal never touches `curvePoints`. -/
theorem revealSegments_curvePoints {α : Type} (c : ℚ) (f : Flight α) :
    (revealSegments c f).curvePoints = f.curvePoints := by
  unfold revealSegments
  split
  · split
    · split
      · simp
      · rfl
    · rfl
  · rfl

/-- One `Flight.update` tick never decreases `dynamicSegmentIndex`. -/
theorem update_seg_mono {α : Type} (c : ℚ) (f : Flight α) :
    f.dynamicSegmentIndex ≤ (Flight.update c f).dynamicSegmentIndex := by
  have h := (addDynamicPath_fields c f).2.2.2.1
  calc f.dynamicSegmentIndex = (addDynamicPath c f).dynamicSegmentIndex := h.symm
    _ ≤ (revealSegments c (addDynamicPath c f)).dynamicSegmentIndex :=
        revealSegments_seg_mono c (addDynamicPath c f)

/-- One `Flight.update` tick never touches `curvePoints`. -/
theorem update_curvePoints {α : Type} (c : ℚ) (f : Flight α) :
    (Flight.update c f).curvePoints = f.curvePoints := by
  have h := (addDynamicPath_fields c f).2.2.1
  calc (Flight.update c f).curvePoints
      = (addDynamicPath c f).curvePoints := revealSegments_curvePoints c _
    _ = f.curvePoints := h

/-- C2: `dynamicSegmentIndex` (the revealed-segment count) is non-decreasing
across EVERY tick sequence — in particular across any sequence with
non-decreasing `simTime` — and a tick whose computed target segment is
strictly smaller than the current index (a backward clock) leaves both the
index and the drawn segments untouched: a no-op on the revealed path, never
a rollback. -/
theorem c2_reveal_monotone_no_rollback {α : Type} (f : Flight α) (ticks : List ℚ) :
    f.dynamicSegmentIndex ≤ (runPath ticks f).dynamicSegmentIndex ∧
      ∀ c : ℚ,
        jlt (targetSeg (progressT c f) f.curvePoints.length)
            (JVal.fin (f.dynamicSegmentIndex : ℚ)) = true →
        (Flight.update c f).dynamicSegmentIndex = f.dynamicSegmentIndex ∧
          (Flight.update c f).posWrites = f.posWrites := by
  constructor
  · induction ticks generalizing f with
    | nil => simp [runPath]
    | cons c ts ih =>
      have h1 : runPath (c :: ts) f = runPath ts (Flight.update c f) := rfl
      rw [h1]
      exact le_trans (update_seg_mono c f) (ih _)
  · intro c hlt
    simp only [progressT] at hlt
    obtain ⟨hst, hdu, hcp, hix, hpw⟩ := addDynamicPath_fields c f
    have hupd : Flight.update c f = revealSegments c (addDynamicPath c f) := rfl
    rw [hupd]
    unfold revealSegments
    rw [hst, hdu, hcp, hix, hpw]
    split
    · cases htgt : targetSeg (jsDiv (c - f.startTime) f.duration) f.curvePoints.length with
      | fin q =>
        rw [htgt] at hlt
        simp only [jlt, decide_eq_true_eq] at hlt
        have hfl : ⌊q⌋ < f.dynamicSegmentIndex := Int.floor_lt.mpr hlt
        simp only [htgt]
        rw [if_neg (not_lt.mpr (le_of_lt hfl))]
        exact ⟨hix, hpw⟩
      | pinf =>
        rw [htgt] at hlt
        simp [jlt] at hlt
      | ninf =>
        simp only [htgt]
        exact ⟨hix, hpw⟩
      | nan =>
        rw [htgt] at hlt
        simp [jlt] at hlt
    · exact ⟨hix, hpw⟩

/-- Concrete flight for the C2 witness: already five segments revealed. -/
def c2Flight : Flight Unit :=
  ⟨0, 0, 0, 90, 0, 100, [(), ()], false, 5, false, false, []⟩

/-- C2 witness: at tick 0 the computed target segment (0) is below the
current index (5); the tick neither rolls the index back nor writes. -/
theorem c2_reveal_monotone_no_rollback_witness :
    c2Flight.dynamicSegmentIndex ≤ (runPath [0] c2Flight).dynamicSegmentIndex ∧
      (Flight.update 0 c2Flight).dynamicSegmentIndex = c2Flight.dynamicSegmentIndex ∧
      (Flight.update 0 c2Flight).posWrites = c2Flight.posWrites := by
  obtain ⟨h1, h2⟩ := c2_reveal_monotone_no_rollback c2Flight [0]
  refine ⟨h1, ?_, ?_⟩
  · exact (h2 0 (by norm_num [c2Flight, progressT, jsDiv, targetSeg, jmul, jfloor, jlt])).1
  · exact (h2 0 (by norm_num [c2Flight, progressT, jsDiv, targetSeg, jmul, jfloor, jlt])).2

/-- Every write recorded by the segment loop lies within the allocated
`(curvePoints.length - 1) * 6` floats: a segment is written only when its
end point `curvePoints[i + 1]` exists, which caps the float offset `i * 6`
at `(length - 2) * 6`. -/
theorem segWrites_mem_bound {α : Type} (cp : List α) (d ti : ℤ) :
    ∀ w ∈ segWrites cp d ti, w.1 + 6 ≤ (cp.length - 1) * 6 := by
  intro w hw
  unfold segWrites at hw
  rw [List.mem_filterMap] at hw
  obtain ⟨i, _, hmatch⟩ := hw
  cases h1 : cpGet cp i with
  | none => rw [h1] at hmatch; simp at hmatch
  | some sPt =>
    cases h2 : cpGet cp (i + 1) with
    | none => rw [h1, h2] at hmatch; simp at hmatch
    | some ePt =>
      rw [h1, h2] at hmatch
      simp only [Option.some.injEq] at hmatch
      have hi0 : 0 ≤ i := by
        by_contra hneg
        unfold cpGet at h1
        rw [if_neg hneg] at h1
        exact absurd h1 (by simp)
      have hlen : (i + 1).toNat < cp.length := by
        unfold cpGet at h2
        rw [if_pos (by omega)] at h2
        exact (List.get?_eq_some.mp h2).1
      have htn : (i + 1).toNat = i.toNat + 1 := by omega
      rw [← hmatch]
      simp only []
      omega

/-- One `Flight.update` tick preserves the write-bound invariant. -/
theorem update_writes_bound {α : Type} (c : ℚ) (f : Flight α)
    (h : ∀ w ∈ f.posWrites, w.1 + 6 ≤ (f.curvePoints.length - 1) * 6) :
    ∀ w ∈ (Flight.update c f).posWrites,
      w.1 + 6 ≤ ((Flight.update c f).curvePoints.length - 1) * 6 := by
  rw [update_curvePoints]
  obtain ⟨hst, hdu, hcp, hix, hpw⟩ := addDynamicPath_fields c f
  have hupd : Flight.update c f = revealSegments c (addDynamicPath c f) := rfl
  rw [hupd]
  unfold revealSegments
  rw [hcp, hix, hpw]
  split
  · split
    · split
      · intro w hw
        simp only [] at hw
        rw [List.mem_append] at hw
        rcases hw with hw | hw
        · exact h w hw
        · exact segWrites_mem_bound f.curvePoints _ _ w hw
      · rw [hpw]; exact h
    · rw [hpw]; exact h
  · rw [hpw]; exact h

/-- C10: across every tick sequence, all writes into a flight's dynamic path
position buffer stay within its allocated `(curvePoints.length - 1) * 6`
floats; the final segment index `curvePoints.length - 1` (reached at
`t = 1`) has no end point, is skipped by the `if (end)` guard, and produces
no out-of-bounds access. -/
theorem c10_writes_in_bounds {α : Type} (f : Flight α) (ticks : List ℚ)
    (h : ∀ w ∈ f.posWrites, w.1 + 6 ≤ (f.curvePoints.length - 1) * 6) :
    ∀ w ∈ (runPath ticks f).posWrites,
      w.1 + 6 ≤ ((runPath ticks f).curvePoints.length - 1) * 6 := by
  induction ticks generalizing f with
  | nil => simpa [runPath] using h
  | cons c ts ih =>
    have h1 : runPath (c :: ts) f = runPath ts (Flight.update c f) := rfl
    rw [h1]
    apply ih
    intro w hw
    exact update_writes_bound c f h w hw

/-- Concrete flight for the C10 witness: a three-point path (two segments,
twelve allocated floats), run up to `t = 1`. -/
def c10Flight : Flight Unit :=
  ⟨0, 0, 0, 90, 0, 100, [(), (), ()], false, 0, false, false, []⟩

/-- C10 witness: running the three-point flight through a tick at exactly
`t = 1` (where the target segment equals the final path point) keeps every
recorded write inside the twelve allocated floats. -/
theorem c10_writes_in_bounds_witness :
    ((runPath [100] c10Flight).posWrites.all
      (fun w => decide (w.1 + 6 ≤ ((runPath [100] c10Flight).curvePoints.length - 1) * 6)))
      = true := by
  have h := c10_writes_in_bounds c10Flight [100] (by simp [c10Flight])
  rw [List.all_eq_true]
  intro w hw
  simpa using h w hw

/-!
Path geometry, over `ℝ` (the source uses trigonometric functions and square
roots, so these definitions are noncomputable).  `latLongToVector3` embeds
the `Flight.prototype` helper (a `setFromSphericalCoords` call after the two
degree-to-radian conversions), and `calculateCurvePoints` the free function
of the same name: lerp the two endpoint vectors, re-normalise, scale by the
altitude `1.05`.  `vnormalize` embeds `Vector3.normalize`, which divides by
`length() || 1` — a zero-length vector is left unchanged. -/
structure Vec3 where
  x : ℝ
  y : ℝ
  z : ℝ

/-- Degrees to radians (`THREE.MathUtils.degToRad`). -/
noncomputable def degToRad (d : ℝ) : ℝ := d * (Real.pi / 180)

/-- Embeds `Vector3.setFromSphericalCoords(radius, phi, theta)`. -/
noncomputable def setFromSphericalCoords (radius phi theta : ℝ) : Vec3 :=
  ⟨radius * Real.sin phi * Real.sin theta,
    radius * Real.cos phi,
    radius * Real.sin phi * Real.cos theta⟩

/-- Embeds `Flight.prototype.latLongToVector3(lat, lon, radius)`. -/
noncomputable def latLongToVector3 (lat lon radius : ℝ) : Vec3 :=
  setFromSphericalCoords radius (degToRad (90 - lat)) (degToRad (lon + 90))

/-- Embeds `Vector3.lerpVectors(a, b, t)`. -/
noncomputable def lerpVectors (a b : Vec3) (t : ℝ) : Vec3 :=
  ⟨a.x + (b.x - a.x) * t, a.y + (b.y - a.y) * t, a.z + (b.z - a.z) * t⟩

/-- Embeds `Vector3.length()`. -/
noncomputable def vlength (v : Vec3) : ℝ :=
  Real.sqrt (v.x ^ 2 + v.y ^ 2 + v.z ^ 2)

/-- Embeds `Vector3.normalize()`: `divideScalar(this.length() || 1)`. -/
noncomputable def vnormalize (v : Vec3) : Vec3 :=
  ⟨v.x / (if vlength v = 0 then 1 else vlength v),
    v.y / (if vlength v = 0 then 1 else vlength v),
    v.z / (if vlength v = 0 then 1 else vlength v)⟩

/-- Embeds `Vector3.multiplyScalar(s)`. -/
noncomputable def vscale (v : Vec3) (s : ℝ) : Vec3 := ⟨v.x * s, v.y * s, v.z * s⟩

/-- Embeds `calculateCurvePoints(originLat, originLon, destLat, destLon,
segments)`: points at `t = i / segments` for `i = 0 .. segments`.  (Lean's
`0 / 0 = 0` convention differs from the JavaScript `NaN` when
`segments = 0`; every statement below that depends on a point's value
therefore assumes `0 < segments`, and the `segments = 0` counterexample
only uses the fact that the path is then a single point, which holds in
both semantics.) -/
noncomputable def calculateCurvePoints (originLat originLon destLat destLon : ℝ)
    (segments : ℕ) : List Vec3 :=
  (List.range (segments + 1)).map fun (i : ℕ) =>
    vscale (vnormalize (lerpVectors (latLongToVector3 originLat originLon 1.05)
      (latLongToVector3 destLat destLon 1.05) ((i : ℝ) / (segments : ℝ)))) 1.05

/-- A spherical-coordinates vector has length equal to its (non-negative)
radius. -/
theorem vlength_setFromSphericalCoords (r phi theta : ℝ) (hr : 0 ≤ r) :
    vlength (setFromSphericalCoords r phi theta) = r := by
  unfold vlength setFromSphericalCoords
  dsimp only
  have key : (r * Real.sin phi * Real.sin theta) ^ 2 + (r * Real.cos phi) ^ 2 +
      (r * Real.sin phi * Real.cos theta) ^ 2 = r ^ 2 := by
    have h1 := Real.sin_sq_add_cos_sq theta
    have h2 := Real.sin_sq_add_cos_sq phi
    linear_combination (r ^ 2 * Real.sin phi ^ 2) * h1 + r ^ 2 * h2
  rw [key]
  exact Real.sqrt_sq hr

/-- The endpoint projections have length exactly `1.05`. -/
theorem vlength_latLongToVector3 (lat lon r : ℝ) (hr : 0 ≤ r) :
    vlength (latLongToVector3 lat lon r) = r :=
  vlength_setFromSphericalCoords r _ _ hr

/-- Normalising and re-scaling a vector of length `1.05` recovers it. -/
theorem vnormalize_vscale_recover (v : Vec3) (h : vlength v = 1.05) :
    vscale (vnormalize v) 1.05 = v := by
  cases v with
  | mk a b c =>
    unfold vnormalize vscale
    rw [h]
    rw [if_neg (by norm_num : ¬((1.05 : ℝ) = 0))]
    dsimp only
    simp only [Vec3.mk.injEq]
    refine ⟨?_, ?_, ?_⟩ <;>
      exact div_mul_cancel₀ _ (by norm_num)

/-- Lerp at parameter 0 is the first endpoint. -/
theorem lerpVectors_zero (a b : Vec3) : lerpVectors a b 0 = a := by
  cases a with
  | mk ax ay az =>
    unfold lerpVectors
    simp only [Vec3.mk.injEq]
    refine ⟨by ring, by ring, by ring⟩

/-- Lerp at parameter 1 is the second endpoint. -/
theorem lerpVectors_one (a b : Vec3) : lerpVectors a b 1 = b := by
  cases b with
  | mk bx by2 bz =>
    unfold lerpVectors
    simp only [Vec3.mk.injEq]
    refine ⟨by ring, by ring, by ring⟩

/-- C5 counterexample: the claim quantifies over EVERY segment count, but
for `segments = 0` the generated path is the single point
`[lerp-at-0/0]`; a one-point path cannot have its first point equal to the
origin projection AND its last point equal to the destination projection
when the two projections differ (here: north pole vs south pole, whose `y`
coordinates are `1.05` and `-1.05`). -/
theorem c5_zero_segments_cex :
    ¬((calculateCurvePoints 90 0 (-90) 0 0).head? =
        some (latLongToVector3 90 0 1.05) ∧
      (calculateCurvePoints 90 0 (-90) 0 0).getLast? =
        some (latLongToVector3 (-90) 0 1.05)) := by
  rintro ⟨h1, h2⟩
  have hl : (calculateCurvePoints 90 0 (-90) 0 0).length = 1 := by
    simp [calculateCurvePoints]
  obtain ⟨a, ha⟩ := List.length_eq_one.mp hl
  rw [ha] at h1 h2
  simp only [List.head?_cons, List.getLast?_singleton, Option.some.injEq] at h1 h2
  have heq : latLongToVector3 90 0 1.05 = latLongToVector3 (-90) 0 1.05 := by
    rw [← h1, ← h2]
  have hy := congrArg Vec3.y heq
  simp only [latLongToVector3, setFromSphericalCoords, degToRad] at hy
  have e1 : Real.cos (((90 : ℝ) - 90) * (Real.pi / 180)) = 1 := by
    norm_num
  have e2 : Real.cos (((90 : ℝ) - -90) * (Real.pi / 180)) = -1 := by
    have h180 : ((90 : ℝ) - -90) * (Real.pi / 180) = Real.pi := by
      field_simp
      ring
    rw [h180, Real.cos_pi]
  rw [e1, e2] at hy
  norm_num at hy

/-- C5 (amended): for every origin, destination and segment count
`S ≥ 1`, the generated path is an ordered sequence of exactly `S + 1`
points whose first point is the origin projection and whose last point is
the destination projection, both at altitude `1.05` above the unit sphere
(the projections themselves have length `1.05`). -/
theorem c5_path_endpoints (originLat originLon destLat destLon : ℝ) (S : ℕ)
    (hS : 0 < S) :
    (calculateCurvePoints originLat originLon destLat destLon S).length = S + 1 ∧
      (calculateCurvePoints originLat originLon destLat destLon S).head? =
        some (latLongToVector3 originLat originLon 1.05) ∧
      (calculateCurvePoints originLat originLon destLat destLon S).getLast? =
        some (latLongToVector3 destLat destLon 1.05) ∧
      vlength (latLongToVector3 originLat originLon 1.05) = 1.05 ∧
      vlength (latLongToVector3 destLat destLon 1.05) = 1.05 := by
  have horig : vlength (latLongToVector3 originLat originLon 1.05) = 1.05 :=
    vlength_latLongToVector3 _ _ _ (by norm_num)
  have hdest : vlength (latLongToVector3 destLat destLon 1.05) = 1.05 :=
    vlength_latLongToVector3 _ _ _ (by norm_num)
  refine ⟨by simp [calculateCurvePoints], ?_, ?_, horig, hdest⟩
  · unfold calculateCurvePoints
    rw [List.range_succ_eq_map]
    simp only [List.map_cons, List.head?_cons, Option.some.injEq]
    rw [Nat.cast_zero, zero_div, lerpVectors_zero]
    exact vnormalize_vscale_recover _ horig
  · have hrange : List.range (S + 1) = List.range S ++ [S] := by
      rw [List.range_succ]
    unfold calculateCurvePoints
    rw [hrange, List.map_append]
    simp only [List.map_cons, List.map_nil]
    rw [List.getLast?_concat]
    simp only [Option.some.injEq]
    have hcast : (S : ℝ) ≠ 0 := Nat.cast_ne_zero.mpr (Nat.pos_iff_ne_zero.mp hS)
    rw [div_self hcast, lerpVectors_one]
    exact vnormalize_vscale_recover _ hdest

/-- C5 witness: the amended endpoint theorem at `S = 1` with a concrete
origin and destination. -/
theorem c5_path_endpoints_witness :
    (calculateCurvePoints 10 20 30 40 1).length = 2 ∧
      (calculateCurvePoints 10 20 30 40 1).head? =
        some (latLongToVector3 10 20 1.05) ∧
      (calculateCurvePoints 10 20 30 40 1).getLast? =
        some (latLongToVector3 30 40 1.05) ∧
      vlength (latLongToVector3 10 20 1.05) = 1.05 ∧
      vlength (latLongToVector3 30 40 1.05) = 1.05 :=
  c5_path_endpoints 10 20 30 40 1 (by norm_num)

/-!
Picking.  `createInstancedPlanes` overrides `planeInstances.raycast`: for
each instance slot the world ray is transformed by the inverse instance
matrix and tested against the shared local bounding sphere (centre at the
origin, radius `0.01` from `SphereGeometry(0.01, 8, 8)`); a hit inside the
raycaster's `[near, far]` window is pushed with its `instanceId`.  The
library caller `Raycaster.intersectObject` sorts the hit list by ascending
distance and the mousemove handler takes element `0`; airport-star meshes
are tested first through the library mesh raycast (an external collaborator,
taken as an input list here); if nothing hits, the tooltip is hidden
("no hit").  Instance matrices written by `updateInstancedPlanes` are rigid
(rotation plus translation), modelled as an affine map `Aff`; a slot never
written keeps the all-zero matrix that `InstancedMesh` allocates. -/

/-- Componentwise vector sum. -/
noncomputable def vadd (u v : Vec3) : Vec3 := ⟨u.x + v.x, u.y + v.y, u.z + v.z⟩

/-- Componentwise vector difference. -/
noncomputable def vsub (u v : Vec3) : Vec3 := ⟨u.x - v.x, u.y - v.y, u.z - v.z⟩

/-- Dot product. -/
noncomputable def vdot (u v : Vec3) : ℝ := u.x * v.x + u.y * v.y + u.z * v.z

/-- Negation. -/
noncomputable def vneg (v : Vec3) : Vec3 := ⟨-v.x, -v.y, -v.z⟩

/-- The zero vector. -/
def vzero : Vec3 := ⟨0, 0, 0⟩

/-- Squared distance (`Vector3.distanceToSquared`). -/
noncomputable def vdistSq (u v : Vec3) : ℝ :=
  (u.x - v.x) ^ 2 + (u.y - v.y) ^ 2 + (u.z - v.z) ^ 2

/-- Distance (`Vector3.distanceTo`). -/
noncomputable def vdist (u v : Vec3) : ℝ := Real.sqrt (vdistSq u v)

/-- A 3-by-3 matrix in row-major entries, the linear part of an instance
matrix. -/
structure Mat3 where
  a : ℝ
  b : ℝ
  c : ℝ
  d : ℝ
  e : ℝ
  f : ℝ
  g : ℝ
  h : ℝ
  i : ℝ

/-- Determinant. -/
noncomputable def mdet (m : Mat3) : ℝ :=
  m.a * (m.e * m.i - m.f * m.h) - m.b * (m.d * m.i - m.f * m.g) +
    m.c * (m.d * m.h - m.e * m.g)

/-- Matrix-vector application. -/
noncomputable def mapply (m : Mat3) (v : Vec3) : Vec3 :=
  ⟨m.a * v.x + m.b * v.y + m.c * v.z,
    m.d * v.x + m.e * v.y + m.f * v.z,
    m.g * v.x + m.h * v.y + m.i * v.z⟩

/-- Adjugate. -/
noncomputable def madj (m : Mat3) : Mat3 :=
  ⟨m.e * m.i - m.f * m.h, -(m.b * m.i - m.c * m.h), m.b * m.f - m.c * m.e,
    -(m.d * m.i - m.f * m.g), m.a * m.i - m.c * m.g, -(m.a * m.f - m.c * m.d),
    m.d * m.h - m.e * m.g, -(m.a * m.h - m.b * m.g), m.a * m.e - m.b * m.d⟩

/-- Scalar multiple. -/
noncomputable def mscale (s : ℝ) (m : Mat3) : Mat3 :=
  ⟨s * m.a, s * m.b, s * m.c, s * m.d, s * m.e, s * m.f, s * m.g, s * m.h, s * m.i⟩

/-- Inverse of a nonsingular matrix (`Matrix4.invert` multiplies the
adjugate by `1 / det`). -/
noncomputable def minv (m : Mat3) : Mat3 := mscale (1 / mdet m) (madj m)

/-- The zero matrix (the state of a never-written instance slot). -/
def mzero : Mat3 := ⟨0, 0, 0, 0, 0, 0, 0, 0, 0⟩

/-- The identity matrix. -/
def idMat : Mat3 := ⟨1, 0, 0, 0, 1, 0, 0, 0, 1⟩

/-- An affine transform: linear part plus translation — the shape of every
instance matrix produced by `updateInstancedPlanes` (and of the 4-by-4
matrices the raycast override inverts; an affine 4-by-4 matrix has the same
determinant as its linear part). -/
structure Aff where
  lin : Mat3
  tr : Vec3

/-- Application of an affine transform. -/
noncomputable def affApply (A : Aff) (v : Vec3) : Vec3 := vadd (mapply A.lin v) A.tr

/-- Embeds `Matrix4.invert` on an affine matrix: for zero determinant
three.js sets the ZERO matrix; otherwise the affine inverse. -/
noncomputable def affInvert (A : Aff) : Aff :=
  if mdet A.lin = 0 then ⟨mzero, vzero⟩
  else ⟨minv A.lin, mapply (minv A.lin) (vneg A.tr)⟩

/-- The identity transform (a slot positioned at the world origin). -/
def affId : Aff := ⟨idMat, vzero⟩

/-- Point on a ray (`Ray.at`). -/
noncomputable def rayAt (o d : Vec3) (t : ℝ) : Vec3 := vadd o (vscale d t)

/-- Embeds `Ray.distanceSqToPoint(point)`. -/
noncomputable def distanceSqToPoint (o d p : Vec3) : ℝ :=
  if vdot (vsub p o) d < 0 then vdistSq o p
  else vdistSq (vadd o (vscale d (vdot (vsub p o) d))) p

/-- Embeds `Ray.intersectSphere(sphere, target)` against the local bounding
sphere (centre at the origin): `null` (here `none`) when the ray misses or
the sphere is entirely behind the origin, otherwise the nearer non-negative
intersection point. -/
noncomputable def intersectSphereOpt (o d : Vec3) (radius : ℝ) : Option Vec3 :=
  let tca := vdot (vsub vzero o) d
  let d2 := vdot (vsub vzero o) (vsub vzero o) - tca ^ 2
  let r2 := radius ^ 2
  if r2 < d2 then none
  else
    let thc := Real.sqrt (r2 - d2)
    if tca + thc < 0 then none
    else if tca - thc < 0 then some (rayAt o d (tca + thc))
    else some (rayAt o d (tca - thc))

/-- Embeds the loop body of the `planeInstances.raycast` override for one
instance slot: invert the instance matrix, transform the ray into the local
frame (`Ray.applyMatrix4`: affine map on the origin, linear map plus
re-normalisation on the direction), test `Ray.intersectsSphere` against the
shared local sphere of radius `1 / 100`, and return the world intersection
point.  A singular instance matrix — in particular the all-zero matrix of a
never-written slot — is inverted by three.js to the zero matrix, whose
projective application divides by `w = 0` and yields `NaN` coordinates, so
every subsequent comparison is false and no hit is recorded; that path is
modelled as `none`.  (When `intersectsSphere` holds, `intersectSphere`
cannot return `null` for a unit direction, so the `getD vzero` default —
JavaScript leaves the target vector at `(0,0,0)` — is never taken.) -/
noncomputable def instanceHit (rayO rayD : Vec3) (A : Aff) : Option Vec3 :=
  if mdet A.lin = 0 then none
  else
    if distanceSqToPoint (affApply (affInvert A) rayO)
        (vnormalize (mapply (affInvert A).lin rayD)) vzero ≤ (1 / 100) ^ 2 then
      some (affApply A
        ((intersectSphereOpt (affApply (affInvert A) rayO)
          (vnormalize (mapply (affInvert A).lin rayD)) (1 / 100)).getD vzero))
    else none

/-- Embeds the `for (let i = 0; i < this.count; i++)` loop starting at slot
index `i`: hits outside the `[near, far]` window are skipped (`continue`),
the rest are pushed as `(distance, instanceId)` in slot order. -/
noncomputable def collectHitsFrom (rayO rayD : Vec3) (near far : ℝ) :
    ℕ → List Aff → List (ℝ × ℕ)
  | _, [] => []
  | i, A :: rest =>
    match instanceHit rayO rayD A with
    | none => collectHitsFrom rayO rayD near far (i + 1) rest
    | some wp =>
      if vdist rayO wp < near ∨ far < vdist rayO wp then
        collectHitsFrom rayO rayD near far (i + 1) rest
      else
        (vdist rayO wp, i) :: collectHitsFrom rayO rayD near far (i + 1) rest

/-- All hits the raycast override pushes for the given slots. -/
noncomputable def collectHits (rayO rayD : Vec3) (near far : ℝ)
    (slots : List Aff) : List (ℝ × ℕ) :=
  collectHitsFrom rayO rayD near far 0 slots

/-- Embeds sort-then-take-first: `Raycaster.intersectObject` sorts the hit
list by ascending distance (stably) and the handler reads element `0`, i.e.
the first hit of minimal distance. -/
noncomputable def bestHit : List (ℝ × ℕ) → Option (ℝ × ℕ)
  | [] => none
  | p :: rest =>
    match bestHit rest with
    | none => some p
    | some b => if b.1 < p.1 then some b else some p

/-- Outcome of the mousemove pick. -/
inductive PickResult where
  | node
  | slot (i : ℕ)
  | noHit
deriving DecidableEq

/-- Embeds the mousemove handler: airport-star intersections (computed by
the library mesh raycast, passed in as `airportHits`) take precedence; next
the closest instance hit is reported with its slot index; otherwise the
tooltip is hidden — no hit. -/
noncomputable def pickQuery (airportHits : List ℝ) (rayO rayD : Vec3)
    (near far : ℝ) (slots : List Aff) : PickResult :=
  if airportHits ≠ [] then PickResult.node
  else
    match bestHit (collectHits rayO rayD near far slots) with
    | some b => PickResult.slot b.2
    | none => PickResult.noHit

/-- The sorted hit list is empty only when no hit was pushed. -/
theorem bestHit_none (l : List (ℝ × ℕ)) (hn : bestHit l = none) : l = [] := by
  cases l with
  | nil => rfl
  | cons p rest =>
    exfalso
    revert hn
    simp only [bestHit]
    cases hb : bestHit rest with
    | none => simp
    | some b =>
      by_cases hc : b.1 < p.1
      · simp [hc]
      · simp [hc]

/-- Element `0` of the sorted hit list is a pushed hit of minimal distance. -/
theorem bestHit_spec (l : List (ℝ × ℕ)) (b : ℝ × ℕ) (hb : bestHit l = some b) :
    b ∈ l ∧ ∀ x ∈ l, b.1 ≤ x.1 := by
  induction l generalizing b with
  | nil => simp [bestHit] at hb
  | cons p rest ih =>
    simp only [bestHit] at hb
    cases hr : bestHit rest with
    | none =>
      have hrest : rest = [] := bestHit_none rest hr
      simp only [hr] at hb
      simp only [Option.some.injEq] at hb
      subst hb
      subst hrest
      exact ⟨List.mem_singleton.mpr rfl, by simp⟩
    | some bb =>
      simp only [hr] at hb
      obtain ⟨hmem, hmin⟩ := ih bb hr
      by_cases hc : bb.1 < p.1
      · rw [if_pos hc] at hb
        simp only [Option.some.injEq] at hb
        subst hb
        refine ⟨List.mem_cons_of_mem _ hmem, ?_⟩
        intro x hx
        rcases List.mem_cons.mp hx with hx | hx
        · rw [hx]
          exact le_of_lt hc
        · exact hmin x hx
      · rw [if_neg hc] at hb
        simp only [Option.some.injEq] at hb
        subst hb
        refine ⟨List.mem_cons_self _ _, ?_⟩
        intro x hx
        rcases List.mem_cons.mp hx with hx | hx
        · rw [hx]
        · exact le_trans (not_lt.mp hc) (hmin x hx)

/-- Every pushed hit lies within the `[near, far]` window and carries a slot
index between the starting index and the end of the slot list. -/
theorem collectHitsFrom_spec (rayO rayD : Vec3) (near far : ℝ) (l : List Aff) :
    ∀ (i : ℕ) (p : ℝ × ℕ), p ∈ collectHitsFrom rayO rayD near far i l →
      near ≤ p.1 ∧ p.1 ≤ far ∧ i ≤ p.2 ∧ p.2 < i + l.length := by
  induction l with
  | nil =>
    intro i p hp
    simp [collectHitsFrom] at hp
  | cons A rest ih =>
    intro i p hp
    simp only [collectHitsFrom] at hp
    cases hi : instanceHit rayO rayD A with
    | none =>
      simp only [hi] at hp
      obtain ⟨h1, h2, h3, h4⟩ := ih (i + 1) p hp
      refine ⟨h1, h2, by omega, ?_⟩
      simp only [List.length_cons]
      omega
    | some wp =>
      simp only [hi] at hp
      by_cases hc : vdist rayO wp < near ∨ far < vdist rayO wp
      · rw [if_pos hc] at hp
        obtain ⟨h1, h2, h3, h4⟩ := ih (i + 1) p hp
        refine ⟨h1, h2, by omega, ?_⟩
        simp only [List.length_cons]
        omega
      · rw [if_neg hc] at hp
        push_neg at hc
        rcases List.mem_cons.mp hp with hp | hp
        · subst hp
          refine ⟨hc.1, hc.2, le_refl i, ?_⟩
          simp only [List.length_cons]
          omega
        · obtain ⟨h1, h2, h3, h4⟩ := ih (i + 1) p hp
          refine ⟨h1, h2, by omega, ?_⟩
          simp only [List.length_cons]
          omega

/-- C9: the pick over the instance slots returns the closest pushed hit —
every pushed hit lies within the `[near, far]` window and names a valid
slot index; a reported slot is a pushed hit of minimal distance along the
ray; and when no slot is hit and no node (airport star) is hit, the query
reports no hit. -/
theorem c9_pick_closest_or_none (airportHits : List ℝ) (rayO rayD : Vec3)
    (near far : ℝ) (slots : List Aff) :
    (∀ p ∈ collectHits rayO rayD near far slots,
        near ≤ p.1 ∧ p.1 ≤ far ∧ p.2 < slots.length) ∧
      (∀ i : ℕ, pickQuery [] rayO rayD near far slots = PickResult.slot i →
        ∃ d0, (d0, i) ∈ collectHits rayO rayD near far slots ∧
          ∀ p ∈ collectHits rayO rayD near far slots, d0 ≤ p.1) ∧
      (collectHits rayO rayD near far slots = [] → airportHits = [] →
        pickQuery airportHits rayO rayD near far slots = PickResult.noHit) := by
  refine ⟨?_, ?_, ?_⟩
  · intro p hp
    obtain ⟨h1, h2, _, h4⟩ := collectHitsFrom_spec rayO rayD near far slots 0 p hp
    exact ⟨h1, h2, by omega⟩
  · intro i hpick
    unfold pickQuery at hpick
    rw [if_neg (by simp)] at hpick
    cases hb : bestHit (collectHits rayO rayD near far slots) with
    | none => rw [hb] at hpick; simp at hpick
    | some b =>
      rw [hb] at hpick
      simp only [PickResult.slot.injEq] at hpick
      obtain ⟨hmem, hmin⟩ := bestHit_spec _ b hb
      refine ⟨b.1, ?_, hmin⟩
      rw [← hpick]
      simpa using hmem
  · intro hempty hair
    unfold pickQuery
    rw [if_neg (by simp [hair]), hempty]
    rfl

/-- Square root fact reused by the concrete pick computations. -/
theorem sqrt_inv_ten_thousand : Real.sqrt (1 / 10000 : ℝ) = 1 / 100 := by
  rw [show (1 / 10000 : ℝ) = (1 / 100 : ℝ) ^ 2 by norm_num]
  exact Real.sqrt_sq (by norm_num)

/-- Square root fact reused by the concrete pick computations. -/
theorem sqrt_ten_thousand : Real.sqrt (10000 : ℝ) = 100 := by
  rw [show (10000 : ℝ) = (100 : ℝ) ^ 2 by norm_num]
  exact Real.sqrt_sq (by norm_num)

/-- Inverting the identity slot transform gives it back. -/
theorem affInvert_id : affInvert affId = affId := by
  simp only [affInvert, affId, idMat, mdet, minv, madj, mscale, mapply, vneg, vzero]
  norm_num

/-- Concrete per-slot hit: the ray from the origin along `+z` hits the
identity slot's sphere at `(0, 0, 1/100)`. -/
theorem instanceHit_id : instanceHit vzero ⟨0, 0, 1⟩ affId = some ⟨0, 0, 1 / 100⟩ := by
  have hisect : intersectSphereOpt vzero ⟨0, 0, 1⟩ (1 / 100) = some ⟨0, 0, 1 / 100⟩ := by
    unfold intersectSphereOpt
    simp only [vdot, vsub, vzero, rayAt, vadd, vscale]
    norm_num [sqrt_inv_ten_thousand, sqrt_ten_thousand]
  have hO : affApply affId vzero = vzero := by
    unfold affApply affId idMat mapply vadd vzero
    norm_num
  have hD : vnormalize (mapply affId.lin ⟨0, 0, 1⟩) = ⟨0, 0, 1⟩ := by
    have h1 : mapply affId.lin ⟨0, 0, 1⟩ = ⟨0, 0, 1⟩ := by
      unfold affId idMat mapply
      norm_num
    rw [h1]
    unfold vnormalize vlength
    norm_num
  have hdsq : distanceSqToPoint vzero ⟨0, 0, 1⟩ vzero = 0 := by
    unfold distanceSqToPoint vdot vsub vzero vdistSq vadd vscale
    norm_num
  unfold instanceHit
  rw [affInvert_id, hO, hD]
  rw [if_neg (by unfold affId idMat mdet; norm_num)]
  rw [if_pos (by rw [hdsq]; positivity)]
  rw [hisect]
  unfold affApply affId idMat mapply vadd vzero
  norm_num

/-- Concrete hit distance of the identity slot for the `+z` ray. -/
theorem vdist_unit_slot : vdist vzero ⟨0, 0, 1 / 100⟩ = 1 / 100 := by
  unfold vdist vdistSq vzero
  norm_num [sqrt_inv_ten_thousand, sqrt_ten_thousand]

/-- Concrete pushed-hit list for the `+z` ray over one identity slot. -/
theorem collectHits_unit_slot :
    collectHits vzero ⟨0, 0, 1⟩ 0 1 [affId] = [(1 / 100, 0)] := by
  unfold collectHits
  simp only [collectHitsFrom, instanceHit_id, vdist_unit_slot]
  rw [if_neg (by norm_num)]

/-- Concrete pick result: the `+z` ray through the identity slot reports
slot `0`. -/
theorem pickQuery_unit_slot :
    pickQuery [] vzero ⟨0, 0, 1⟩ 0 1 [affId] = PickResult.slot 0 := by
  unfold pickQuery
  rw [if_neg (by simp), collectHits_unit_slot]
  simp [bestHit]

/-- C9 witness: the pick theorem applied to a ray through a single active
identity slot (window `[0, 1]`) and to an empty scene. -/
theorem c9_pick_closest_or_none_witness :
    ((0 : ℝ) ≤ ((1 / 100 : ℝ), (0 : ℕ)).1 ∧ ((1 / 100 : ℝ), (0 : ℕ)).1 ≤ 1 ∧
        ((1 / 100 : ℝ), (0 : ℕ)).2 < [affId].length) ∧
      (∃ d0, (d0, 0) ∈ collectHits vzero ⟨0, 0, 1⟩ 0 1 [affId] ∧
        ∀ p ∈ collectHits vzero ⟨0, 0, 1⟩ 0 1 [affId], d0 ≤ p.1) ∧
      pickQuery [] vzero ⟨0, 0, 1⟩ 0 1 [] = PickResult.noHit := by
  refine ⟨?_, ?_, ?_⟩
  · exact (c9_pick_closest_or_none [] vzero ⟨0, 0, 1⟩ 0 1 [affId]).1
      ((1 / 100 : ℝ), (0 : ℕ)) (by rw [collectHits_unit_slot]; simp)
  · exact (c9_pick_closest_or_none [] vzero ⟨0, 0, 1⟩ 0 1 [affId]).2.1 0
      pickQuery_unit_slot
  · exact (c9_pick_closest_or_none [] vzero ⟨0, 0, 1⟩ 0 1 []).2.2 rfl rfl

end FlightSim
